import Mathlib

/-!
# VIGIA Recife proxy: retrying fetcher and cached route handlers

A shallow embedding of `src/server.js`.  The fetch helper `fetchWithRetry`
and the ten caching route handlers are translated into pure functions that
return, next to their result, the list of effects they performed
(outbound requests, backoff sleeps, cache reads and writes, log lines).

The environment is passed explicitly:
* the outcome of the `i`-th call to `axios.get` inside one run of
  `fetchWithRetry` is `axiosGet i`;
* the clock values read by `cache.get` and `cache.set` are `tGet` and `tSet`.
-/

set_option autoImplicit false

namespace VigiaProxy

/-! ## Values -/

/-- JSON payloads as produced by the upstream and passed through unchanged.
Numbers are represented by integers. -/
inductive Json where
  | null
  | bool (b : Bool)
  | num (n : Int)
  | str (s : String)
  | arr (items : List Json)
  | obj (fields : List (String × Json))

/-- JavaScript truthiness of a JSON value: `null`, `false`, `0` and `''`
are falsy, everything else (every array and object included) is truthy. -/
def Json.truthy : Json → Bool
  | .null => false
  | .bool b => b
  | .num n => n != 0
  | .str s => s != ""
  | .arr _ => true
  | .obj _ => true

/-- Truthiness of a JavaScript variable that holds a JSON value or
`undefined` (`none`). -/
def truthy : Option Json → Bool
  | none => false
  | some v => v.truthy

/-- Truthiness of a variable that holds a string or `undefined`. -/
def strTruthy : Option String → Bool
  | none => false
  | some s => s != ""

/-- An error object thrown by `axios.get`; only its `message` is read. -/
structure JsError where
  message : String

/-- Observable effects, in program order. -/
inductive Event where
  /-- Call `axios.get(url, { timeout, headers })` -/
  | httpGet (url : String) (timeout : Nat)
  /-- Timer `setTimeout(resolve, ms)` awaited -/
  | sleep (ms : Nat)
  /-- Line written by `console.log` for a failed attempt: attempt number, url, message -/
  | consoleLog (attemptNo : Nat) (url : String) (message : String)
  /-- Call `console.error(label, message)` -/
  | consoleError (label : String) (message : String)
  /-- Call `cache.get(key)` -/
  | cacheGet (key : String)
  /-- Call `cache.set(key, value, ttl)`; `none` is `undefined` -/
  | cacheSet (key : String) (value : Option Json) (ttl : Nat)

/-- How a run of `fetchWithRetry` ends: `.error e` is `throw e`,
`.ok (some d)` is `return d`, and `.ok none` is falling off the end of the
loop, which makes the promise resolve to `undefined`. -/
abbrev Completion := Except JsError (Option Json)

/-! ## The fetcher (server.js lines 33-51) -/

/-- The `for (let i = 0; i < retries; i++)` loop of `fetchWithRetry`,
entered with loop variable `i`.  The first argument bounds the number of
iterations still to run; `fetchWithRetry` starts it at `retries.toNat`,
which the loop test makes enough (`retryLoop_fuel`). -/
def retryLoop (axiosGet : Nat → Except JsError Json) (url : String) (retries : Int)
    (timeout : Nat) : Nat → Nat → Completion × List Event
  | 0, _ => (.ok none, [])
  | fuel + 1, i =>
    if (i : Int) < retries then
      match axiosGet i with
      | .ok data => (.ok (some data), [.httpGet url timeout])
      | .error error =>
        if (i : Int) = retries - 1 then
          (.error error, [.httpGet url timeout, .consoleLog (i + 1) url error.message])
        else
          let rest := retryLoop axiosGet url retries timeout fuel (i + 1)
          (rest.1, [.httpGet url timeout, .consoleLog (i + 1) url error.message,
                    .sleep (1000 * (i + 1))] ++ rest.2)
    else (.ok none, [])

/-- Function `async function fetchWithRetry(url, retries = 3, timeout = 10000)`. -/
def fetchWithRetry (axiosGet : Nat → Except JsError Json) (url : String)
    (retries : Int := 3) (timeout : Nat := 10000) : Completion × List Event :=
  retryLoop axiosGet url retries timeout retries.toNat 0

/-- The outbound requests of a trace, in order. -/
def requests : List Event → List (String × Nat)
  | [] => []
  | .httpGet url timeout :: es => (url, timeout) :: requests es
  | _ :: es => requests es

/-- The backoff delays of a trace, in order. -/
def sleeps : List Event → List Nat
  | [] => []
  | .sleep ms :: es => ms :: sleeps es
  | _ :: es => sleeps es

/-! ## The response cache (node-cache, by its contract) -/

/-- A stored entry: the key, the wrapped value (`none` is `undefined`) and
the expiry timestamp in milliseconds. -/
structure Entry where
  key : String
  v : Option Json
  t : Nat

/-- The store behind `new NodeCache({ stdTTL: 900 })`: at most one entry per
key is kept, newest first. -/
structure NodeCache where
  data : List Entry

/-- Method `cache.get(key)` read at clock value `now`: `undefined` when the key was
never set or its entry has expired (`t < now`), otherwise the stored value,
with a stored `undefined` unwrapped as `null`. -/
def NodeCache.get (cache : NodeCache) (now : Nat) (key : String) : Option Json :=
  match cache.data.find? (fun e => e.key == key) with
  | some e => if e.t < now then none else some (e.v.getD Json.null)
  | none => none

/-- Method `cache.set(key, value, ttl)` called at clock value `now`: overwrites the
entry of `key`; the new entry expires `ttl` seconds after the call. -/
def NodeCache.set (cache : NodeCache) (now : Nat) (key : String) (value : Option Json)
    (ttl : Nat) : NodeCache :=
  ⟨⟨key, value, now + 1000 * ttl⟩ :: cache.data.filter (fun e => e.key != key)⟩

/-- Method `cache.flushAll()`. -/
def NodeCache.flushAll (_cache : NodeCache) : NodeCache := ⟨[]⟩

/-! ## `encodeURIComponent` (ECMAScript built-in) -/

/-- Characters that `encodeURIComponent` leaves as they are:
ASCII letters, digits and `- _ . ! ~ * ' ( )`. -/
def uriUnreserved (c : Char) : Bool :=
  c.isAlphanum || c ∈ ['-', '_', '.', '!', '~', '*', Char.ofNat 39, '(', ')']

/-- UTF-8 encoding of a code point. -/
def utf8Bytes (n : Nat) : List Nat :=
  if n < 0x80 then [n]
  else if n < 0x800 then [0xC0 + n / 64, 0x80 + n % 64]
  else if n < 0x10000 then [0xE0 + n / 4096, 0x80 + n / 64 % 64, 0x80 + n % 64]
  else [0xF0 + n / 262144, 0x80 + n / 4096 % 64, 0x80 + n / 64 % 64, 0x80 + n % 64]

/-- Upper-case hexadecimal digit. -/
def hexDigit (n : Nat) : Char :=
  if n < 10 then Char.ofNat (48 + n) else Char.ofNat (55 + n)

/-- One byte as `%XX`. -/
def pctByte (b : Nat) : List Char := ['%', hexDigit (b / 16), hexDigit (b % 16)]

/-- Built-in `encodeURIComponent(s)`. -/
def encodeURIComponent (s : String) : String :=
  String.mk (s.data.flatMap fun c =>
    if uriUnreserved c then [c] else (utf8Bytes c.toNat).flatMap pctByte)

/-! ## Route handlers (server.js lines 64-261) -/

/-- Constant `API_BASES.ckan` -/
def ckan : String := "http://dados.recife.pe.gov.br/api/3"

/-- Constant `API_BASES.receitas` -/
def receitasBase : String :=
  "https://portaldatransparencia.recife.pe.gov.br/dados/api/receitas"

/-- Constant `API_BASES.despesas` -/
def despesasBase : String :=
  "https://portaldatransparencia.recife.pe.gov.br/dados/api/despesas"

/-- What `res.status(..).json(..)` sent; `body = none` is `res.json(undefined)`. -/
structure Response where
  status : Nat
  body : Option Json

/-- The environment of one request: the outcomes of the successive
`axios.get` calls and the clock values seen by `cache.get` and `cache.set`. -/
structure World where
  axiosGet : Nat → Except JsError Json
  tGet : Nat
  tSet : Nat

/-- What a handler did: the response, the cache afterwards, the effects. -/
structure Outcome where
  response : Response
  cache : NodeCache
  trace : List Event

/-- The body shared, statement for statement, by the ten caching handlers:
```
try {
  let data = cache.get(cacheKey);
  if (!data) { data = await fetchWithRetry(url); cache.set(cacheKey, data, ttl); }
  res.json(data);
} catch (error) {
  console.error(label, error.message);
  res.status(500).json({ error: text, details: error.message });
}
```
-/
def cachedRoute (cacheKey url : String) (ttl : Nat) (label text : String)
    (cache : NodeCache) (w : World) : Outcome :=
  let data := cache.get w.tGet cacheKey
  if !truthy data then
    match fetchWithRetry w.axiosGet url with
    | (.ok data, fetched) =>
      { response := ⟨200, data⟩
        cache := cache.set w.tSet cacheKey data ttl
        trace := [.cacheGet cacheKey] ++ fetched ++ [.cacheSet cacheKey data ttl] }
    | (.error error, fetched) =>
      { response := ⟨500, some (.obj [("error", .str text), ("details", .str error.message)])⟩
        cache := cache
        trace := [.cacheGet cacheKey] ++ fetched ++ [.consoleError label error.message] }
  else
    { response := ⟨200, data⟩, cache := cache, trace := [.cacheGet cacheKey] }

/-- Handler `app.get('/api/datasets')` -/
def datasets (cache : NodeCache) (w : World) : Outcome :=
  cachedRoute "datasets_list" (ckan ++ "/action/package_list") 3600
    "Erro ao buscar datasets:" "Erro ao acessar API de datasets" cache w

/-- Handler `app.get('/api/dataset/:id')` -/
def dataset (id : String) (cache : NodeCache) (w : World) : Outcome :=
  cachedRoute ("dataset_" ++ id) (ckan ++ "/action/package_show?id=" ++ id) 1800
    ("Erro ao buscar dataset " ++ id ++ ":") ("Erro ao acessar dataset " ++ id) cache w

/-- The upstream URL built by `/api/datastore/:resource_id`; `limit` and
`offset` default to `100` and `0`, `filters` is appended when truthy. -/
def datastoreUrl (resource_id : String) (limit offset filters : Option String) : String :=
  let url := ckan ++ "/action/datastore_search?resource_id=" ++ resource_id
    ++ "&limit=" ++ limit.getD "100" ++ "&offset=" ++ offset.getD "0"
  if strTruthy filters then url ++ "&filters=" ++ encodeURIComponent (filters.getD "")
  else url

/-- The cache key built by `/api/datastore/:resource_id`. -/
def datastoreKey (resource_id : String) (limit offset filters : Option String) : String :=
  "datastore_" ++ resource_id ++ "_" ++ limit.getD "100" ++ "_" ++ offset.getD "0" ++ "_"
    ++ (if strTruthy filters then filters.getD "" else "nofilter")

/-- Handler `app.get('/api/datastore/:resource_id')` -/
def datastore (resource_id : String) (limit offset filters : Option String)
    (cache : NodeCache) (w : World) : Outcome :=
  cachedRoute (datastoreKey resource_id limit offset filters)
    (datastoreUrl resource_id limit offset filters) 900
    ("Erro ao buscar dados do resource " ++ resource_id ++ ":")
    ("Erro ao acessar dados do resource " ++ resource_id) cache w

/-- Handler `app.get('/api/saude/medicamentos')` -/
def medicamentos (cache : NodeCache) (w : World) : Outcome :=
  cachedRoute "saude_medicamentos"
    (ckan ++ "/action/datastore_search?resource_id=49657ff7-9860-4b3b-9840-c4239c34f3d2&limit=1000")
    900 "Erro ao buscar medicamentos:" "Erro ao acessar dados de medicamentos" cache w

/-- Handler `app.get('/api/mobilidade/acidentes')` -/
def acidentes (cache : NodeCache) (w : World) : Outcome :=
  cachedRoute "cttu_acidentes"
    (ckan ++ "/action/datastore_search?resource_id=b8094cbb-c904-4325-b375-8276bc1a6d0b&limit=1000")
    900 "Erro ao buscar acidentes:" "Erro ao acessar dados de acidentes" cache w

/-- Cache key of `/api/financeiro/receitas`; `ano` defaults to `'2025'`. -/
def receitasKey (ano : Option String) : String := "receitas_" ++ ano.getD "2025"

/-- Upstream URL of `/api/financeiro/receitas`. -/
def receitasUrl (ano : Option String) : String := receitasBase ++ "/" ++ ano.getD "2025"

/-- Handler `app.get('/api/financeiro/receitas')` -/
def receitas (ano : Option String) (cache : NodeCache) (w : World) : Outcome :=
  cachedRoute (receitasKey ano) (receitasUrl ano) 1800
    "Erro ao buscar receitas:" "Erro ao acessar receitas" cache w

/-- Cache key of `/api/financeiro/despesas`; `ano` defaults to `'2025'`. -/
def despesasKey (ano : Option String) : String := "despesas_" ++ ano.getD "2025"

/-- Upstream URL of `/api/financeiro/despesas`. -/
def despesasUrl (ano : Option String) : String := despesasBase ++ "/" ++ ano.getD "2025"

/-- Handler `app.get('/api/financeiro/despesas')` -/
def despesas (ano : Option String) (cache : NodeCache) (w : World) : Outcome :=
  cachedRoute (despesasKey ano) (despesasUrl ano) 1800
    "Erro ao buscar despesas:" "Erro ao acessar despesas" cache w

/-- Handler `app.get('/api/empresas/cadastro')` -/
def empresas (cache : NodeCache) (w : World) : Outcome :=
  cachedRoute "empresas_cadastro"
    (ckan ++ "/action/datastore_search?resource_id=61ca6a8b-1648-44a5-87db-431777b33144&limit=5000")
    3600 "Erro ao buscar empresas:" "Erro ao acessar cadastro de empresas" cache w

/-- Handler `app.get('/api/156/demandas')` -/
def demandas156 (cache : NodeCache) (w : World) : Outcome :=
  cachedRoute "156_demandas"
    (ckan ++ "/action/datastore_search?resource_id=a87570a9-94af-4610-b729-a59ff21a574d&limit=2000")
    900 "Erro ao buscar demandas 156:" "Erro ao acessar demandas do 156" cache w

/-- Handler `app.get('/api/search')`: a falsy `q` (absent or empty) is answered with
400 before anything else happens; `rows` defaults to `20`. -/
def search (q rows : Option String) (cache : NodeCache) (w : World) : Outcome :=
  if !strTruthy q then
    { response := ⟨400, some (.obj [("error", .str "Parâmetro de busca (q) é obrigatório")])⟩
      cache := cache
      trace := [] }
  else
    cachedRoute ("search_" ++ q.getD "" ++ "_" ++ rows.getD "20")
      (ckan ++ "/action/package_search?q=" ++ encodeURIComponent (q.getD "")
        ++ "&rows=" ++ rows.getD "20") 1800
      "Erro na busca:" "Erro ao realizar busca" cache w

/-- A GET request to one of the caching routes, with its path and query
parameters (`none` is an absent query parameter). -/
inductive Request where
  | datasets
  | dataset (id : String)
  | datastore (resource_id : String) (limit offset filters : Option String)
  | medicamentos
  | acidentes
  | receitas (ano : Option String)
  | despesas (ano : Option String)
  | empresas
  | demandas156
  | search (q rows : Option String)

/-- Express routing: the handler registered for the request's path. -/
def handle : Request → NodeCache → World → Outcome
  | .datasets => datasets
  | .dataset id => dataset id
  | .datastore r l o f => datastore r l o f
  | .medicamentos => medicamentos
  | .acidentes => acidentes
  | .receitas ano => receitas ano
  | .despesas ano => despesas ano
  | .empresas => empresas
  | .demandas156 => demandas156
  | .search q rows => search q rows

/-! ## Vocabulary of the statements -/

/-- The key under which a request's handler looks the cache up
(`handle_trace_head` ties it to the handlers). -/
def Request.cacheKey : Request → String
  | .datasets => "datasets_list"
  | .dataset id => "dataset_" ++ id
  | .datastore r l o f => datastoreKey r l o f
  | .medicamentos => "saude_medicamentos"
  | .acidentes => "cttu_acidentes"
  | .receitas ano => receitasKey ano
  | .despesas ano => despesasKey ano
  | .empresas => "empresas_cadastro"
  | .demandas156 => "156_demandas"
  | .search q rows => "search_" ++ q.getD "" ++ "_" ++ rows.getD "20"

/-- Requests answered before any cache lookup: a search whose `q` is falsy. -/
def Request.rejected : Request → Bool
  | .search q _ => !strTruthy q
  | _ => false

/-- The logical resources of the specification's TTL policy table. -/
inductive Resource where
  | datasetList
  | datasetDetail
  | datastoreSearch
  | medications
  | accidentRecords
  | companyRegistry
  | citizenRequests
  | revenueByYear
  | expenseByYear
  | freeTextSearch

/-- The resource a route serves. -/
def Request.resource : Request → Resource
  | .datasets => .datasetList
  | .dataset _ => .datasetDetail
  | .datastore _ _ _ _ => .datastoreSearch
  | .medicamentos => .medications
  | .acidentes => .accidentRecords
  | .receitas _ => .revenueByYear
  | .despesas _ => .expenseByYear
  | .empresas => .companyRegistry
  | .demandas156 => .citizenRequests
  | .search _ _ => .freeTextSearch

/-- The TTL policy table as the specification words it, in seconds:
dataset list 3600, single dataset detail 1800, generic datastore search 900,
curated resources 3600 for the registry and 900 for the rest,
revenue / expense by year 1800, free-text search 1800. -/
def specTtl : Resource → Nat
  | .datasetList => 3600
  | .datasetDetail => 1800
  | .datastoreSearch => 900
  | .medications => 900
  | .accidentRecords => 900
  | .companyRegistry => 3600
  | .citizenRequests => 900
  | .revenueByYear => 1800
  | .expenseByYear => 1800
  | .freeTextSearch => 1800

/-! ## Trace shapes used in the statements -/

/-- The effects of one failed attempt with index `i`: the request and the
log line carrying the attempt number `i + 1`. -/
def failedAttempt (url : String) (timeout : Nat) (errs : Nat → JsError) (i : Nat) :
    List Event :=
  [.httpGet url timeout, .consoleLog (i + 1) url (errs i).message]

/-- The effects of a failed attempt that is followed by a retry: as
`failedAttempt`, then the backoff sleep of `1000 * (i + 1)` ms. -/
def retriedAttempt (url : String) (timeout : Nat) (errs : Nat → JsError) (i : Nat) :
    List Event :=
  failedAttempt url timeout errs i ++ [.sleep (1000 * (i + 1))]

/-! ## The fetcher: lemmas -/

theorem requests_append (xs ys : List Event) :
    requests (xs ++ ys) = requests xs ++ requests ys := by
  induction xs with
  | nil => rfl
  | cons e es ih => cases e <;> simp [requests, ih]

theorem sleeps_append (xs ys : List Event) :
    sleeps (xs ++ ys) = sleeps xs ++ sleeps ys := by
  induction xs with
  | nil => rfl
  | cons e es ih => cases e <;> simp [sleeps, ih]

theorem requests_retried (url : String) (timeout : Nat) (errs : Nat → JsError) (i n : Nat) :
    requests ((List.range' i n).flatMap (retriedAttempt url timeout errs))
      = List.replicate n (url, timeout) := by
  induction n generalizing i with
  | zero => rfl
  | succ n ih =>
    rw [List.range'_succ, List.flatMap_cons, requests_append, ih]
    simp [retriedAttempt, failedAttempt, requests, List.replicate_succ]

theorem sleeps_retried (url : String) (timeout : Nat) (errs : Nat → JsError) (i n : Nat) :
    sleeps ((List.range' i n).flatMap (retriedAttempt url timeout errs))
      = (List.range' i n).map (fun j => 1000 * (j + 1)) := by
  induction n generalizing i with
  | zero => rfl
  | succ n ih =>
    rw [List.range'_succ, List.flatMap_cons, sleeps_append, ih]
    simp [retriedAttempt, failedAttempt, sleeps]

/-- Fuel beyond the number of iterations the loop test allows is never used. -/
theorem retryLoop_fuel (axiosGet : Nat → Except JsError Json) (url : String) (retries : Int)
    (timeout : Nat) (fuel i : Nat) (h : (retries - i).toNat ≤ fuel) :
    retryLoop axiosGet url retries timeout (fuel + 1) i
      = retryLoop axiosGet url retries timeout fuel i := by
  induction fuel generalizing i with
  | zero =>
    have hi : ¬ ((i : Int) < retries) := by omega
    simp [retryLoop, hi]
  | succ fuel ih =>
    conv_lhs => rw [retryLoop]
    conv_rhs => rw [retryLoop]
    by_cases hi : (i : Int) < retries
    · have hnext : (retries - ((i + 1 : Nat) : Int)).toNat ≤ fuel := by omega
      simp only [hi, if_true, ih (i + 1) hnext]
    · simp [hi]

/-- After `n` failed attempts starting at index `i`, a successful attempt
within the budget ends the loop with its payload. -/
theorem retryLoop_success (axiosGet : Nat → Except JsError Json) (url : String)
    (retries : Int) (timeout : Nat) (errs : Nat → JsError) (v : Json) (n : Nat) :
    ∀ (i fuel : Nat), n < fuel → ((i + n : Nat) : Int) < retries →
      (∀ j, j < n → axiosGet (i + j) = .error (errs (i + j))) →
      axiosGet (i + n) = .ok v →
      retryLoop axiosGet url retries timeout fuel i
        = (.ok (some v), (List.range' i n).flatMap (retriedAttempt url timeout errs)
            ++ [.httpGet url timeout]) := by
  induction n with
  | zero =>
    intro i fuel hfuel hlt _ hok
    obtain ⟨f, rfl⟩ : ∃ f, fuel = f + 1 := ⟨fuel - 1, by omega⟩
    have hi : (i : Int) < retries := by simpa using hlt
    have hok0 : axiosGet i = .ok v := by simpa using hok
    simp [retryLoop, hi, hok0]
  | succ n ih =>
    intro i fuel hfuel hlt hfail hok
    obtain ⟨f, rfl⟩ : ∃ f, fuel = f + 1 := ⟨fuel - 1, by omega⟩
    have hi : (i : Int) < retries := by omega
    have hne : ¬ ((i : Int) = retries - 1) := by omega
    have h0 : axiosGet i = .error (errs i) := by simpa using hfail 0 (by omega)
    have hrec := ih (i + 1) f (by omega) (by
        have : i + 1 + n = i + (n + 1) := by omega
        rw [this]; exact hlt)
      (fun j hj => by
        have := hfail (j + 1) (by omega)
        have e : i + 1 + j = i + (j + 1) := by omega
        rw [e]; exact this)
      (by
        have e : i + 1 + n = i + (n + 1) := by omega
        rw [e]; exact hok)
    rw [retryLoop]
    simp only [hi, if_true, h0, hne, if_false, hrec, List.range'_succ, List.flatMap_cons]
    simp [retriedAttempt, failedAttempt]

/-- When the attempts `i, ..., i + n` all fail and `i + n` is the last index
`retries - 1`, the loop throws the error of attempt `i + n`. -/
theorem retryLoop_all_fail (axiosGet : Nat → Except JsError Json) (url : String)
    (retries : Int) (timeout : Nat) (errs : Nat → JsError) (n : Nat) :
    ∀ (i fuel : Nat), n < fuel → ((i + n : Nat) : Int) = retries - 1 →
      (∀ j, j ≤ n → axiosGet (i + j) = .error (errs (i + j))) →
      retryLoop axiosGet url retries timeout fuel i
        = (.error (errs (i + n)), (List.range' i n).flatMap (retriedAttempt url timeout errs)
            ++ failedAttempt url timeout errs (i + n)) := by
  induction n with
  | zero =>
    intro i fuel hfuel hlast hfail
    obtain ⟨f, rfl⟩ : ∃ f, fuel = f + 1 := ⟨fuel - 1, by omega⟩
    have hi : (i : Int) < retries := by omega
    have heq : (i : Int) = retries - 1 := by simpa using hlast
    have h0 : axiosGet i = .error (errs i) := by simpa using hfail 0 (by omega)
    simp [retryLoop, hi, h0, heq, failedAttempt]
  | succ n ih =>
    intro i fuel hfuel hlast hfail
    obtain ⟨f, rfl⟩ : ∃ f, fuel = f + 1 := ⟨fuel - 1, by omega⟩
    have hi : (i : Int) < retries := by omega
    have hne : ¬ ((i : Int) = retries - 1) := by omega
    have h0 : axiosGet i = .error (errs i) := by simpa using hfail 0 (by omega)
    have e : i + 1 + n = i + (n + 1) := by omega
    have hrec := ih (i + 1) f (by omega) (by rw [e]; exact hlast)
      (fun j hj => by
        have := hfail (j + 1) (by omega)
        have e2 : i + 1 + j = i + (j + 1) := by omega
        rw [e2]; exact this)
    rw [retryLoop]
    simp only [hi, if_true, h0, hne, if_false, hrec, List.range'_succ, List.flatMap_cons, e]
    simp [retriedAttempt, failedAttempt]

/-- With at least one iteration to run, the loop ends by returning the
payload of a successful attempt or by throwing the error of a failed one;
the attempt has an index within the budget, `j < retries`. -/
theorem retryLoop_returns_or_throws (axiosGet : Nat → Except JsError Json) (url : String)
    (retries : Int) (timeout : Nat) (fuel : Nat) :
    ∀ i : Nat, (i : Int) + fuel = retries → 0 < fuel →
      (∃ v, ∃ j : Nat, (j : Int) < retries ∧ axiosGet j = .ok v ∧
          (retryLoop axiosGet url retries timeout fuel i).1 = .ok (some v)) ∨
      (∃ e, ∃ j : Nat, (j : Int) < retries ∧ axiosGet j = .error e ∧
          (retryLoop axiosGet url retries timeout fuel i).1 = .error e) := by
  induction fuel with
  | zero => intro i _ h; omega
  | succ n ih =>
    intro i hsum _
    have hi : (i : Int) < retries := by omega
    rw [retryLoop]
    simp only [hi, if_true]
    cases hres : axiosGet i with
    | ok v => exact Or.inl ⟨v, i, hi, hres, rfl⟩
    | error e =>
      by_cases hlast : (i : Int) = retries - 1
      · simp only [hlast, if_true]
        exact Or.inr ⟨e, i, hi, hres, rfl⟩
      · simp only [hlast, if_false]
        exact ih (i + 1) (by push_cast; omega) (by omega)

/-- The default budget: the first success at `k < 3` is returned after
`k + 1` requests. -/
theorem default_fetch_success (axiosGet : Nat → Except JsError Json)
    (url : String) (errs : Nat → JsError) (v : Json) (k : Nat) (hk : k < 3)
    (hfail : ∀ i : Nat, i < k → axiosGet i = .error (errs i)) (hok : axiosGet k = .ok v) :
    (fetchWithRetry axiosGet url).1 = .ok (some v) ∧
    requests (fetchWithRetry axiosGet url).2 = List.replicate (k + 1) (url, 10000) := by
  have hrun := retryLoop_success axiosGet url 3 10000 errs v k 0 (3 : Int).toNat
    (by simpa using hk) (by simp; omega) (fun j hj => by simpa using hfail j hj)
    (by simpa using hok)
  rw [fetchWithRetry, hrun]
  refine ⟨rfl, ?_⟩
  rw [requests_append, requests_retried]
  simp [requests, List.replicate_succ']

/-- The default budget: three failures throw the error of the third attempt
after three requests. -/
theorem default_fetch_three_failures (axiosGet : Nat → Except JsError Json)
    (url : String) (e0 e1 e2 : JsError) (h0 : axiosGet 0 = .error e0)
    (h1 : axiosGet 1 = .error e1) (h2 : axiosGet 2 = .error e2) :
    (fetchWithRetry axiosGet url).1 = .error e2 ∧
    requests (fetchWithRetry axiosGet url).2 = List.replicate 3 (url, 10000) := by
  simp [fetchWithRetry, retryLoop, h0, h1, h2, requests]

/-! ## The fetcher: contract -/

/-- C1: for every url and every integer `retries >= 1`, when every attempt
fails, `fetchWithRetry` makes exactly `retries` requests, sleeps exactly
`retries - 1` times with the delays `1000 * 1, ..., 1000 * (retries - 1)` ms
(the delay after failed attempt `i` is `1000 * (i + 1)`, none follows the
last attempt) and then throws the error of the last attempt. -/
theorem fetchWithRetry_persistent_failure (axiosGet : Nat → Except JsError Json)
    (url : String) (retries : Int) (timeout : Nat) (errs : Nat → JsError)
    (hretries : 1 ≤ retries)
    (hfail : ∀ i : Nat, (i : Int) < retries → axiosGet i = .error (errs i)) :
    (fetchWithRetry axiosGet url retries timeout).1 = .error (errs (retries.toNat - 1)) ∧
    requests (fetchWithRetry axiosGet url retries timeout).2
      = List.replicate retries.toNat (url, timeout) ∧
    sleeps (fetchWithRetry axiosGet url retries timeout).2
      = (List.range (retries.toNat - 1)).map (fun i => 1000 * (i + 1)) ∧
    (fetchWithRetry axiosGet url retries timeout).2
      = (List.range (retries.toNat - 1)).flatMap (retriedAttempt url timeout errs)
          ++ failedAttempt url timeout errs (retries.toNat - 1) := by
  obtain ⟨n, hn⟩ : ∃ n : Nat, retries.toNat = n + 1 := ⟨retries.toNat - 1, by omega⟩
  have hrun := retryLoop_all_fail axiosGet url retries timeout errs n 0 retries.toNat
    (by omega) (by omega) (fun j hj => by
      have := hfail j (by omega)
      simpa using this)
  have hsub : retries.toNat - 1 = n := by omega
  simp only [Nat.zero_add] at hrun
  rw [fetchWithRetry, hrun, hsub, List.range_eq_range']
  refine ⟨rfl, ?_, ?_, rfl⟩
  · rw [requests_append, requests_retried, hn]
    simp [failedAttempt, requests, List.replicate_succ']
  · rw [sleeps_append, sleeps_retried]
    simp [failedAttempt, sleeps]

/-- Witness of C1: three attempts failing with distinct messages. -/
theorem fetchWithRetry_persistent_failure_witness :
    (fetchWithRetry (fun i => .error ⟨"fail " ++ toString i⟩) "http://upstream/x" 3 10000).1
      = .error ⟨"fail " ++ toString ((3 : Int).toNat - 1)⟩ ∧
    requests (fetchWithRetry (fun i => .error ⟨"fail " ++ toString i⟩)
        "http://upstream/x" 3 10000).2
      = List.replicate (3 : Int).toNat ("http://upstream/x", 10000) ∧
    sleeps (fetchWithRetry (fun i => .error ⟨"fail " ++ toString i⟩)
        "http://upstream/x" 3 10000).2
      = (List.range ((3 : Int).toNat - 1)).map (fun i => 1000 * (i + 1)) ∧
    (fetchWithRetry (fun i => .error ⟨"fail " ++ toString i⟩) "http://upstream/x" 3 10000).2
      = (List.range ((3 : Int).toNat - 1)).flatMap
            (retriedAttempt "http://upstream/x" 10000 (fun i => ⟨"fail " ++ toString i⟩))
          ++ failedAttempt "http://upstream/x" 10000 (fun i => ⟨"fail " ++ toString i⟩)
              ((3 : Int).toNat - 1) :=
  fetchWithRetry_persistent_failure (fun i => .error ⟨"fail " ++ toString i⟩)
    "http://upstream/x" 3 10000 (fun i => ⟨"fail " ++ toString i⟩) (by decide)
    (fun _ _ => rfl)

/-- C2: for every url and every integer `retries >= 1`, when the first
successful attempt has index `k < retries`, `fetchWithRetry` returns the
body of attempt `k` unmodified and throws nothing, makes exactly `k + 1`
requests (none after the success) and sleeps exactly the delays
`1000 * 1, ..., 1000 * k` ms. -/
theorem fetchWithRetry_first_success (axiosGet : Nat → Except JsError Json)
    (url : String) (retries : Int) (timeout : Nat) (errs : Nat → JsError) (v : Json)
    (k : Nat) (hk : (k : Int) < retries)
    (hfail : ∀ i : Nat, i < k → axiosGet i = .error (errs i))
    (hok : axiosGet k = .ok v) :
    (fetchWithRetry axiosGet url retries timeout).1 = .ok (some v) ∧
    requests (fetchWithRetry axiosGet url retries timeout).2
      = List.replicate (k + 1) (url, timeout) ∧
    sleeps (fetchWithRetry axiosGet url retries timeout).2
      = (List.range k).map (fun i => 1000 * (i + 1)) ∧
    (fetchWithRetry axiosGet url retries timeout).2
      = (List.range k).flatMap (retriedAttempt url timeout errs)
          ++ [.httpGet url timeout] := by
  have hrun := retryLoop_success axiosGet url retries timeout errs v k 0 retries.toNat
    (by omega) (by simpa using hk) (fun j hj => by simpa using hfail j hj)
    (by simpa using hok)
  rw [fetchWithRetry, hrun, List.range_eq_range']
  refine ⟨rfl, ?_, ?_, rfl⟩
  · rw [requests_append, requests_retried]
    simp [requests, List.replicate_succ']
  · rw [sleeps_append, sleeps_retried]
    simp [sleeps]

/-- Witness of C2: two failures, then a payload at attempt index 2 of 3. -/
theorem fetchWithRetry_first_success_witness :
    (fetchWithRetry (fun i => if i < 2 then .error ⟨"reset"⟩ else .ok (.str "body"))
        "http://upstream/x" 3 10000).1 = .ok (some (.str "body")) ∧
    requests (fetchWithRetry (fun i => if i < 2 then .error ⟨"reset"⟩ else .ok (.str "body"))
        "http://upstream/x" 3 10000).2
      = List.replicate (2 + 1) ("http://upstream/x", 10000) ∧
    sleeps (fetchWithRetry (fun i => if i < 2 then .error ⟨"reset"⟩ else .ok (.str "body"))
        "http://upstream/x" 3 10000).2
      = (List.range 2).map (fun i => 1000 * (i + 1)) ∧
    (fetchWithRetry (fun i => if i < 2 then .error ⟨"reset"⟩ else .ok (.str "body"))
        "http://upstream/x" 3 10000).2
      = (List.range 2).flatMap (retriedAttempt "http://upstream/x" 10000 (fun _ => ⟨"reset"⟩))
          ++ [.httpGet "http://upstream/x" 10000] :=
  fetchWithRetry_first_success (fun i => if i < 2 then .error ⟨"reset"⟩ else .ok (.str "body"))
    "http://upstream/x" 3 10000 (fun _ => ⟨"reset"⟩) (.str "body") 2 (by decide)
    (fun i hi => by simp [hi]) (by simp)

/-- C3, as the code has it: for every integer `retries >= 1` and every
sequence of attempt outcomes, `fetchWithRetry` either returns the payload of
a successful attempt or throws the error of a failed attempt, the attempt
being one of the budget (index `i` with `0 <= i < retries`); it never
completes with neither a payload nor an error. -/
theorem fetchWithRetry_returns_or_throws (axiosGet : Nat → Except JsError Json)
    (url : String) (retries : Int) (timeout : Nat) (hretries : 1 ≤ retries) :
    ((∃ v, ∃ i : Nat, (i : Int) < retries ∧ axiosGet i = .ok v ∧
        (fetchWithRetry axiosGet url retries timeout).1 = .ok (some v)) ∨
     (∃ e, ∃ i : Nat, (i : Int) < retries ∧ axiosGet i = .error e ∧
        (fetchWithRetry axiosGet url retries timeout).1 = .error e)) ∧
    (fetchWithRetry axiosGet url retries timeout).1 ≠ .ok none := by
  have h := retryLoop_returns_or_throws axiosGet url retries timeout retries.toNat 0
    (by omega) (by omega)
  refine ⟨h, ?_⟩
  intro hnone
  rw [fetchWithRetry] at hnone
  rcases h with ⟨v, i, _, _, hv⟩ | ⟨e, i, _, _, he⟩
  · rw [hnone] at hv; cases hv
  · rw [hnone] at he; cases he

/-- Witness of C3 as amended, at the default `retries = 3`, the upstream
failing twice and then answering. -/
theorem fetchWithRetry_returns_or_throws_witness :
    (1 : Int) ≤ 3 ∧
    ((∃ v, ∃ i : Nat, (i : Int) < 3 ∧
        (fun k : Nat => if k < 2 then (Except.error ⟨"down"⟩ : Except JsError Json)
          else .ok (.num 5)) i = .ok v ∧
        (fetchWithRetry (fun k => if k < 2 then .error ⟨"down"⟩ else .ok (.num 5))
          "http://upstream/x" 3 10000).1 = .ok (some v)) ∨
     (∃ e, ∃ i : Nat, (i : Int) < 3 ∧
        (fun k : Nat => if k < 2 then (Except.error ⟨"down"⟩ : Except JsError Json)
          else .ok (.num 5)) i = .error e ∧
        (fetchWithRetry (fun k => if k < 2 then .error ⟨"down"⟩ else .ok (.num 5))
          "http://upstream/x" 3 10000).1 = .error e)) ∧
    (fetchWithRetry (fun k => if k < 2 then .error ⟨"down"⟩ else .ok (.num 5))
      "http://upstream/x" 3 10000).1 ≠ .ok none :=
  ⟨by decide,
    fetchWithRetry_returns_or_throws (fun k => if k < 2 then .error ⟨"down"⟩ else .ok (.num 5))
      "http://upstream/x" 3 10000 (by decide)⟩

/-- Counterexample to C3 as stated: with `retries = 0` (and likewise with a
negative value) the loop body never runs; `fetchWithRetry` makes no request
and completes with `undefined`, neither a payload nor an error. -/
theorem fetchWithRetry_no_retries_undefined :
    fetchWithRetry (fun _ => .ok (.num 5)) "http://upstream/x" 0 10000 = (.ok none, []) ∧
    fetchWithRetry (fun _ => .error ⟨"down"⟩) "http://upstream/x" (-2) 10000 = (.ok none, []) ∧
    ¬ ((∃ v, (fetchWithRetry (fun _ => .ok (.num 5)) "http://upstream/x" 0 10000).1
          = .ok (some v)) ∨
       (∃ e, (fetchWithRetry (fun _ => .ok (.num 5)) "http://upstream/x" 0 10000).1
          = .error e)) := by
  refine ⟨rfl, rfl, ?_⟩
  rintro (⟨v, hv⟩ | ⟨e, he⟩)
  · simp [fetchWithRetry, retryLoop] at hv
  · simp [fetchWithRetry, retryLoop] at he

/-! ## The cache and the handlers: lemmas -/

/-- Reading back the key just written: the new value, until it expires. -/
theorem NodeCache.get_set_same (cache : NodeCache) (tSet now : Nat) (key : String)
    (value : Option Json) (ttl : Nat) :
    (cache.set tSet key value ttl).get now key
      = if tSet + 1000 * ttl < now then none else some (value.getD Json.null) := by
  simp [NodeCache.get, NodeCache.set, List.find?]

theorem cachedRoute_hit (key url : String) (ttl : Nat) (label text : String)
    (cache : NodeCache) (w : World) (h : truthy (cache.get w.tGet key) = true) :
    cachedRoute key url ttl label text cache w
      = ⟨⟨200, cache.get w.tGet key⟩, cache, [.cacheGet key]⟩ := by
  simp [cachedRoute, h]

theorem cachedRoute_fetched (key url : String) (ttl : Nat) (label text : String)
    (cache : NodeCache) (w : World) (h : truthy (cache.get w.tGet key) = false)
    (d : Option Json) (tr : List Event) (hf : fetchWithRetry w.axiosGet url = (.ok d, tr)) :
    cachedRoute key url ttl label text cache w
      = ⟨⟨200, d⟩, cache.set w.tSet key d ttl,
          [.cacheGet key] ++ tr ++ [.cacheSet key d ttl]⟩ := by
  simp [cachedRoute, h, hf]

theorem cachedRoute_failed (key url : String) (ttl : Nat) (label text : String)
    (cache : NodeCache) (w : World) (h : truthy (cache.get w.tGet key) = false)
    (e : JsError) (tr : List Event) (hf : fetchWithRetry w.axiosGet url = (.error e, tr)) :
    cachedRoute key url ttl label text cache w
      = ⟨⟨500, some (.obj [("error", .str text), ("details", .str e.message)])⟩, cache,
          [.cacheGet key] ++ tr ++ [.consoleError label e.message]⟩ := by
  simp [cachedRoute, h, hf]

/-- Every request that is not rejected runs the shared handler body on its
own cache key, with the TTL of the policy table. -/
theorem handle_eq_cachedRoute (req : Request) (hreq : req.rejected = false) :
    ∃ url label text, ∀ cache w,
      handle req cache w
        = cachedRoute req.cacheKey url (specTtl req.resource) label text cache w := by
  cases req with
  | search q rows =>
    have hq : (!strTruthy q) = false := hreq
    exact ⟨_, _, _, fun cache w => by
      simp only [handle, search, hq, Bool.false_eq_true, if_false]
      rfl⟩
  | _ => exact ⟨_, _, _, fun _ _ => rfl⟩

/-- The first effect of a request that is not rejected is the lookup of its
cache key. -/
theorem handle_trace_head (req : Request) (hreq : req.rejected = false)
    (cache : NodeCache) (w : World) :
    (handle req cache w).trace.head? = some (.cacheGet req.cacheKey) := by
  obtain ⟨url, label, text, h⟩ := handle_eq_cachedRoute req hreq
  rw [h, cachedRoute]
  split
  · split <;> rfl
  · rfl

/-- A truthy payload stored by one request is served, without any upstream
request, to a later request that computes the same cache key and arrives
before the entry expires. -/
theorem served_from_cache (req1 req2 : Request) (h1 : req1.rejected = false)
    (h2 : req2.rejected = false) (hkey : req1.cacheKey = req2.cacheKey)
    (cache : NodeCache) (w1 w2 : World) (errs : Nat → JsError) (v : Json) (k : Nat)
    (hmiss : truthy (cache.get w1.tGet req1.cacheKey) = false) (hk : k < 3)
    (hfail : ∀ i : Nat, i < k → w1.axiosGet i = .error (errs i))
    (hok : w1.axiosGet k = .ok v) (hv : v.truthy = true)
    (hfresh : w2.tGet ≤ w1.tSet + 1000 * specTtl req1.resource) :
    (handle req2 (handle req1 cache w1).cache w2).response = ⟨200, some v⟩ ∧
    (handle req2 (handle req1 cache w1).cache w2).trace = [.cacheGet req2.cacheKey] ∧
    (handle req2 (handle req1 cache w1).cache w2).cache = (handle req1 cache w1).cache := by
  obtain ⟨url1, label1, text1, e1⟩ := handle_eq_cachedRoute req1 h1
  obtain ⟨url2, label2, text2, e2⟩ := handle_eq_cachedRoute req2 h2
  have hf := default_fetch_success w1.axiosGet url1 errs v k hk hfail hok
  have hfirst := cachedRoute_fetched req1.cacheKey url1 (specTtl req1.resource) label1 text1
    cache w1 hmiss (some v) (fetchWithRetry w1.axiosGet url1).2 (Prod.ext hf.1 rfl)
  have hget : ((handle req1 cache w1).cache).get w2.tGet req2.cacheKey = some v := by
    rw [e1, hfirst, ← hkey]
    simp only [NodeCache.get_set_same]
    have : ¬ (w1.tSet + 1000 * specTtl req1.resource < w2.tGet) := by omega
    simp [this]
  have hsecond := cachedRoute_hit req2.cacheKey url2 (specTtl req2.resource) label2 text2
    (handle req1 cache w1).cache w2 (by rw [hget]; exact hv)
  rw [e2, hsecond, hget]
  exact ⟨rfl, rfl, rfl⟩

/-- A request whose fetch fails on all three attempts leaves the cache as it
was. -/
theorem failed_fetch_keeps_cache (req : Request) (cache : NodeCache) (w : World)
    (e0 e1 e2 : JsError) (h0 : w.axiosGet 0 = .error e0) (h1 : w.axiosGet 1 = .error e1)
    (h2 : w.axiosGet 2 = .error e2) :
    (handle req cache w).cache = cache := by
  cases hrej : req.rejected with
  | true =>
    cases req with
    | search q rows =>
      have hq : (!strTruthy q) = true := hrej
      simp [handle, search, hq]
    | _ => simp [Request.rejected] at hrej
  | false =>
    obtain ⟨url, label, text, e⟩ := handle_eq_cachedRoute req hrej
    rw [e]
    cases hhit : truthy (cache.get w.tGet req.cacheKey) with
    | true => rw [cachedRoute_hit _ _ _ _ _ _ _ hhit]
    | false =>
      have hf := default_fetch_three_failures w.axiosGet url e0 e1 e2 h0 h1 h2
      rw [cachedRoute_failed _ _ _ _ _ _ _ hhit e2 (fetchWithRetry w.axiosGet url).2
        (Prod.ext hf.1 rfl)]

/-- A request that finds a truthy value under its key answers with it,
makes no upstream request and leaves the cache as it was. -/
theorem truthy_hit_keeps_cache (req : Request) (hreq : req.rejected = false)
    (cache : NodeCache) (w : World)
    (hhit : truthy (cache.get w.tGet req.cacheKey) = true) :
    (handle req cache w).cache = cache ∧
    (handle req cache w).trace = [.cacheGet req.cacheKey] ∧
    (handle req cache w).response = ⟨200, cache.get w.tGet req.cacheKey⟩ := by
  obtain ⟨url, label, text, e⟩ := handle_eq_cachedRoute req hreq
  rw [e, cachedRoute_hit _ _ _ _ _ _ _ hhit]
  exact ⟨rfl, rfl, rfl⟩

/-- A datastore request that misses the cache and whose first attempt
succeeds makes exactly one upstream request, to its own URL. -/
theorem datastore_fetches_own_url (r : String) (l o f : Option String) (cache : NodeCache)
    (w : World) (v : Json)
    (hmiss : truthy (cache.get w.tGet (datastoreKey r l o f)) = false)
    (hok : w.axiosGet 0 = .ok v) :
    requests (handle (.datastore r l o f) cache w).trace = [(datastoreUrl r l o f, 10000)] := by
  have hf := default_fetch_success w.axiosGet (datastoreUrl r l o f) (fun _ => ⟨""⟩) v 0
    (by decide) (fun i hi => absurd hi (Nat.not_lt_zero i)) hok
  show requests (cachedRoute (datastoreKey r l o f) (datastoreUrl r l o f) 900 _ _
    cache w).trace = _
  rw [cachedRoute_fetched _ _ _ _ _ _ _ hmiss (some v) (fetchWithRetry w.axiosGet _).2
    (Prod.ext hf.1 rfl)]
  simp [requests_append, requests, hf.2]

/-- Appending the `filters` parameter changes the URL. -/
theorem datastoreUrl_nofilter_ne (r : String) (l o : Option String) :
    datastoreUrl r l o none ≠ datastoreUrl r l o (some "nofilter") := by
  intro h
  have hlen := congrArg String.length h
  have e : datastoreUrl r l o (some "nofilter")
      = datastoreUrl r l o none ++ "&filters=" ++ "nofilter" := rfl
  rw [e] at hlen
  simp only [String.length_append] at hlen
  have h1 : "&filters=".length = 9 := by decide
  have h2 : "nofilter".length = 8 := by decide
  omega

/-! ## The handlers: contract -/

/-- C4 at a failing input: `/api/datasets` is requested twice, the second
time 200 ms after the first and so well inside the 3600 s TTL.  The upstream
answers the first request with the payload `0`, which is stored and is live
at the second request; the second request nevertheless issues an upstream
request and answers with the new payload `1`, not with the cached `0`. -/
theorem falsy_payload_fetched_again :
    (handle .datasets ⟨[]⟩ ⟨fun _ => .ok (.num 0), 0, 100⟩).response
      = ⟨200, some (.num 0)⟩ ∧
    (handle .datasets ⟨[]⟩ ⟨fun _ => .ok (.num 0), 0, 100⟩).cache.data
      = [⟨"datasets_list", some (.num 0), 3600100⟩] ∧
    (handle .datasets ⟨[]⟩ ⟨fun _ => .ok (.num 0), 0, 100⟩).cache.get 200 "datasets_list"
      = some (.num 0) ∧
    (handle .datasets (handle .datasets ⟨[]⟩ ⟨fun _ => .ok (.num 0), 0, 100⟩).cache
        ⟨fun _ => .ok (.num 1), 200, 300⟩).response = ⟨200, some (.num 1)⟩ ∧
    requests (handle .datasets (handle .datasets ⟨[]⟩ ⟨fun _ => .ok (.num 0), 0, 100⟩).cache
        ⟨fun _ => .ok (.num 1), 200, 300⟩).trace
      = [("http://dados.recife.pe.gov.br/api/3/action/package_list", 10000)] :=
  ⟨rfl, rfl, rfl, rfl, rfl⟩

/-- C5: a request to `/api/search` with no `q` parameter is answered with
status 400 and a JSON error body; the handler performs no cache lookup and
no upstream request (it has no effect at all) and leaves the cache
unchanged, whatever `rows` is. -/
theorem search_without_q_rejected (rows : Option String) (cache : NodeCache) (w : World) :
    (handle (.search none rows) cache w).response.status = 400 ∧
    (handle (.search none rows) cache w).response.body
      = some (.obj [("error", .str "Parâmetro de busca (q) é obrigatório")]) ∧
    (handle (.search none rows) cache w).trace = [] ∧
    (handle (.search none rows) cache w).cache = cache :=
  ⟨rfl, rfl, rfl, rfl⟩

/-- C6: for `/api/financeiro/receitas`, and likewise for
`/api/financeiro/despesas`, a request with no `ano` parameter computes the
same cache key and the same upstream URL as a request with `ano=2025`; the
key is `receitas_2025`, respectively `despesas_2025`, and the two requests
are handled identically. -/
theorem ano_defaults_to_2025 :
    receitasKey none = "receitas_2025" ∧ receitasKey (some "2025") = "receitas_2025" ∧
    receitasUrl none = receitasUrl (some "2025") ∧
    despesasKey none = "despesas_2025" ∧ despesasKey (some "2025") = "despesas_2025" ∧
    despesasUrl none = despesasUrl (some "2025") ∧
    (∀ cache w, handle (.receitas none) cache w = handle (.receitas (some "2025")) cache w) ∧
    (∀ cache w, handle (.despesas none) cache w = handle (.despesas (some "2025")) cache w) :=
  ⟨by decide, by decide, rfl, by decide, by decide, rfl, fun _ _ => rfl, fun _ _ => rfl⟩

/-- C7: for every caching handler, when the request misses the cache and the
fetch succeeds (first success at attempt `k < 3`), the payload is stored
under the request's key with exactly the TTL of the policy table: the
`cache.set` call is the last effect and the new entry expires
`1000 * specTtl` ms after it. -/
theorem stored_with_policy_ttl (req : Request) (cache : NodeCache) (w : World)
    (errs : Nat → JsError) (v : Json) (k : Nat) (hreq : req.rejected = false)
    (hmiss : truthy (cache.get w.tGet req.cacheKey) = false) (hk : k < 3)
    (hfail : ∀ i : Nat, i < k → w.axiosGet i = .error (errs i))
    (hok : w.axiosGet k = .ok v) :
    (handle req cache w).trace.getLast?
      = some (.cacheSet req.cacheKey (some v) (specTtl req.resource)) ∧
    (handle req cache w).cache
      = cache.set w.tSet req.cacheKey (some v) (specTtl req.resource) ∧
    (handle req cache w).cache.data.head?
      = some ⟨req.cacheKey, some v, w.tSet + 1000 * specTtl req.resource⟩ ∧
    (handle req cache w).response = ⟨200, some v⟩ := by
  obtain ⟨url, label, text, e⟩ := handle_eq_cachedRoute req hreq
  have hf := default_fetch_success w.axiosGet url errs v k hk hfail hok
  rw [e, cachedRoute_fetched _ _ _ _ _ _ _ hmiss (some v) (fetchWithRetry w.axiosGet url).2
    (Prod.ext hf.1 rfl)]
  refine ⟨?_, rfl, rfl, rfl⟩
  exact List.getLast?_concat _

/-- Witness of C7: `/api/empresas/cadastro` on an empty cache, the upstream
failing once and then answering. -/
theorem stored_with_policy_ttl_witness :
    (handle .empresas ⟨[]⟩
        ⟨fun i => if i < 1 then .error ⟨"reset"⟩ else .ok (.str "rows"), 0, 1500⟩).trace.getLast?
      = some (.cacheSet Request.empresas.cacheKey (some (.str "rows"))
          (specTtl Request.empresas.resource)) ∧
    (handle .empresas ⟨[]⟩
        ⟨fun i => if i < 1 then .error ⟨"reset"⟩ else .ok (.str "rows"), 0, 1500⟩).cache
      = (⟨[]⟩ : NodeCache).set 1500 Request.empresas.cacheKey (some (.str "rows"))
          (specTtl Request.empresas.resource) ∧
    (handle .empresas ⟨[]⟩
        ⟨fun i => if i < 1 then .error ⟨"reset"⟩ else .ok (.str "rows"), 0, 1500⟩).cache.data.head?
      = some ⟨Request.empresas.cacheKey, some (.str "rows"),
          1500 + 1000 * specTtl Request.empresas.resource⟩ ∧
    (handle .empresas ⟨[]⟩
        ⟨fun i => if i < 1 then .error ⟨"reset"⟩ else .ok (.str "rows"), 0, 1500⟩).response
      = ⟨200, some (.str "rows")⟩ :=
  stored_with_policy_ttl .empresas ⟨[]⟩
    ⟨fun i => if i < 1 then .error ⟨"reset"⟩ else .ok (.str "rows"), 0, 1500⟩
    (fun _ => ⟨"reset"⟩) (.str "rows") 1 rfl rfl (by decide)
    (fun i hi => by simp [hi]) (by simp)

/-- C8: for every caching handler, when the request misses the cache and all
three attempts of the fetch fail, the response has status 500 and a JSON
body with exactly the fields `error` and `details`, where `details` is the
message of the third attempt's error. -/
theorem all_attempts_fail_500 (req : Request) (cache : NodeCache) (w : World)
    (e0 e1 e2 : JsError) (hreq : req.rejected = false)
    (hmiss : truthy (cache.get w.tGet req.cacheKey) = false)
    (h0 : w.axiosGet 0 = .error e0) (h1 : w.axiosGet 1 = .error e1)
    (h2 : w.axiosGet 2 = .error e2) :
    (handle req cache w).response.status = 500 ∧
    ∃ text, (handle req cache w).response.body
      = some (.obj [("error", .str text), ("details", .str e2.message)]) := by
  obtain ⟨url, label, text, e⟩ := handle_eq_cachedRoute req hreq
  have hf := default_fetch_three_failures w.axiosGet url e0 e1 e2 h0 h1 h2
  rw [e, cachedRoute_failed _ _ _ _ _ _ _ hmiss e2 (fetchWithRetry w.axiosGet url).2
    (Prod.ext hf.1 rfl)]
  exact ⟨rfl, text, rfl⟩

/-- Witness of C8: `/api/dataset/abc` on an empty cache with three attempts
failing with three different messages. -/
theorem all_attempts_fail_500_witness :
    (handle (.dataset "abc") ⟨[]⟩
        ⟨fun i => .error ⟨"fail " ++ toString i⟩, 0, 0⟩).response.status = 500 ∧
    ∃ text, (handle (.dataset "abc") ⟨[]⟩
        ⟨fun i => .error ⟨"fail " ++ toString i⟩, 0, 0⟩).response.body
      = some (.obj [("error", .str text),
          ("details", .str (JsError.mk ("fail " ++ toString 2)).message)]) :=
  all_attempts_fail_500 (.dataset "abc") ⟨[]⟩ ⟨fun i => .error ⟨"fail " ++ toString i⟩, 0, 0⟩
    ⟨"fail " ++ toString 0⟩ ⟨"fail " ++ toString 1⟩ ⟨"fail " ++ toString 2⟩ rfl rfl rfl rfl rfl

/-- C9 at a failing input.  A first request to `/api/datasets` on an empty
cache fetches the payload `0` and stores it at time 100, so the entry
expires at 3600100.  A second request at time 200 finds that entry live:
`cache.get` returns `0` (a hit).  The handler nevertheless fetches, and
overwrites the entry with the new payload `7` and the new expiry 3600300:
the request that hit the cache does not leave it as it was. -/
theorem falsy_hit_overwrites_entry :
    (handle .datasets ⟨[]⟩ ⟨fun _ => .ok (.num 0), 0, 100⟩).cache.data
      = [⟨"datasets_list", some (.num 0), 3600100⟩] ∧
    (handle .datasets ⟨[]⟩ ⟨fun _ => .ok (.num 0), 0, 100⟩).cache.get 200 "datasets_list"
      = some (.num 0) ∧
    (handle .datasets (handle .datasets ⟨[]⟩ ⟨fun _ => .ok (.num 0), 0, 100⟩).cache
        ⟨fun _ => .ok (.num 7), 200, 300⟩).cache.data
      = [⟨"datasets_list", some (.num 7), 3600300⟩] ∧
    (handle .datasets (handle .datasets ⟨[]⟩ ⟨fun _ => .ok (.num 0), 0, 100⟩).cache
        ⟨fun _ => .ok (.num 7), 200, 300⟩).cache.data
      ≠ (handle .datasets ⟨[]⟩ ⟨fun _ => .ok (.num 0), 0, 100⟩).cache.data ∧
    (handle .datasets (handle .datasets ⟨[]⟩ ⟨fun _ => .ok (.num 0), 0, 100⟩).cache
        ⟨fun _ => .ok (.num 7), 200, 300⟩).trace.getLast?
      = some (.cacheSet "datasets_list" (some (.num 7)) 3600) := by
  refine ⟨rfl, rfl, rfl, ?_, rfl⟩
  intro h
  have hnew : (handle .datasets (handle .datasets ⟨[]⟩ ⟨fun _ => .ok (.num 0), 0, 100⟩).cache
      ⟨fun _ => .ok (.num 7), 200, 300⟩).cache.data
      = [⟨"datasets_list", some (.num 7), 3600300⟩] := rfl
  have hold : (handle .datasets ⟨[]⟩ ⟨fun _ => .ok (.num 0), 0, 100⟩).cache.data
      = [⟨"datasets_list", some (.num 0), 3600100⟩] := rfl
  rw [hnew, hold] at h
  simp at h

/-- C10: the cache key of `/api/datastore/:resource_id` does not determine
the upstream URL.  The requests (`a`, limit `1_2`, offset `0`, no filters)
and (`a_1`, limit `2`, offset `0`, no filters) both have the key
`datastore_a_1_2_0_nofilter` and different URLs; and for any resource id,
limit and offset, a request with no filters and one with `filters=nofilter`
have the same key and different URLs.  In both pairs, once the first request
has fetched a (truthy) payload from its own URL, the second request, made
within the 900 s TTL, is answered with that payload and makes no upstream
request. -/
theorem datastore_key_collision (r : String) (l o : Option String) (cache : NodeCache)
    (w1 w2 : World) (v : Json) (hv : v.truthy = true) (hok : w1.axiosGet 0 = .ok v)
    (hfresh : w2.tGet ≤ w1.tSet + 900000)
    (hmissA : truthy (cache.get w1.tGet "datastore_a_1_2_0_nofilter") = false)
    (hmissR : truthy (cache.get w1.tGet (datastoreKey r l o none)) = false) :
    (datastoreKey "a" (some "1_2") (some "0") none = "datastore_a_1_2_0_nofilter" ∧
     datastoreKey "a_1" (some "2") (some "0") none = "datastore_a_1_2_0_nofilter" ∧
     datastoreUrl "a" (some "1_2") (some "0") none
       ≠ datastoreUrl "a_1" (some "2") (some "0") none ∧
     requests (handle (.datastore "a" (some "1_2") (some "0") none) cache w1).trace
       = [(datastoreUrl "a" (some "1_2") (some "0") none, 10000)] ∧
     (handle (.datastore "a_1" (some "2") (some "0") none)
        (handle (.datastore "a" (some "1_2") (some "0") none) cache w1).cache w2).response
       = ⟨200, some v⟩ ∧
     requests (handle (.datastore "a_1" (some "2") (some "0") none)
        (handle (.datastore "a" (some "1_2") (some "0") none) cache w1).cache w2).trace
       = []) ∧
    (datastoreKey r l o none = datastoreKey r l o (some "nofilter") ∧
     datastoreUrl r l o none ≠ datastoreUrl r l o (some "nofilter") ∧
     requests (handle (.datastore r l o none) cache w1).trace
       = [(datastoreUrl r l o none, 10000)] ∧
     (handle (.datastore r l o (some "nofilter"))
        (handle (.datastore r l o none) cache w1).cache w2).response = ⟨200, some v⟩ ∧
     requests (handle (.datastore r l o (some "nofilter"))
        (handle (.datastore r l o none) cache w1).cache w2).trace = []) := by
  have keyA1 : datastoreKey "a" (some "1_2") (some "0") none = "datastore_a_1_2_0_nofilter" := by
    decide
  have keyA2 : datastoreKey "a_1" (some "2") (some "0") none = "datastore_a_1_2_0_nofilter" := by
    decide
  have keyR : datastoreKey r l o none = datastoreKey r l o (some "nofilter") := rfl
  have servedA := served_from_cache (.datastore "a" (some "1_2") (some "0") none)
    (.datastore "a_1" (some "2") (some "0") none) rfl rfl (keyA1.trans keyA2.symm)
    cache w1 w2 (fun _ => ⟨""⟩) v 0 (by rw [Request.cacheKey, keyA1]; exact hmissA)
    (by decide) (fun i hi => absurd hi (Nat.not_lt_zero i)) hok hv hfresh
  have servedR := served_from_cache (.datastore r l o none)
    (.datastore r l o (some "nofilter")) rfl rfl keyR
    cache w1 w2 (fun _ => ⟨""⟩) v 0 hmissR
    (by decide) (fun i hi => absurd hi (Nat.not_lt_zero i)) hok hv hfresh
  refine ⟨⟨keyA1, keyA2, by decide, ?_, servedA.1, ?_⟩,
    ⟨keyR, datastoreUrl_nofilter_ne r l o, ?_, servedR.1, ?_⟩⟩
  · exact datastore_fetches_own_url "a" (some "1_2") (some "0") none cache w1 v
      (by rw [keyA1]; exact hmissA) hok
  · rw [servedA.2.1]; rfl
  · exact datastore_fetches_own_url r l o none cache w1 v hmissR hok
  · rw [servedR.2.1]; rfl

/-- Witness of C10: an empty cache, the first request fetching the payload
`[1]` and storing it at time 50, the second request arriving at time 60. -/
theorem datastore_key_collision_witness :
    (datastoreKey "a" (some "1_2") (some "0") none = "datastore_a_1_2_0_nofilter" ∧
     datastoreKey "a_1" (some "2") (some "0") none = "datastore_a_1_2_0_nofilter" ∧
     datastoreUrl "a" (some "1_2") (some "0") none
       ≠ datastoreUrl "a_1" (some "2") (some "0") none ∧
     requests (handle (.datastore "a" (some "1_2") (some "0") none) ⟨[]⟩
         ⟨fun _ => .ok (.arr [.num 1]), 0, 50⟩).trace
       = [(datastoreUrl "a" (some "1_2") (some "0") none, 10000)] ∧
     (handle (.datastore "a_1" (some "2") (some "0") none)
        (handle (.datastore "a" (some "1_2") (some "0") none) ⟨[]⟩
          ⟨fun _ => .ok (.arr [.num 1]), 0, 50⟩).cache
        ⟨fun _ => .ok (.arr [.num 2]), 60, 70⟩).response
       = ⟨200, some (.arr [.num 1])⟩ ∧
     requests (handle (.datastore "a_1" (some "2") (some "0") none)
        (handle (.datastore "a" (some "1_2") (some "0") none) ⟨[]⟩
          ⟨fun _ => .ok (.arr [.num 1]), 0, 50⟩).cache
        ⟨fun _ => .ok (.arr [.num 2]), 60, 70⟩).trace
       = []) ∧
    (datastoreKey "res" none none none = datastoreKey "res" none none (some "nofilter") ∧
     datastoreUrl "res" none none none ≠ datastoreUrl "res" none none (some "nofilter") ∧
     requests (handle (.datastore "res" none none none) ⟨[]⟩
         ⟨fun _ => .ok (.arr [.num 1]), 0, 50⟩).trace
       = [(datastoreUrl "res" none none none, 10000)] ∧
     (handle (.datastore "res" none none (some "nofilter"))
        (handle (.datastore "res" none none none) ⟨[]⟩
          ⟨fun _ => .ok (.arr [.num 1]), 0, 50⟩).cache
        ⟨fun _ => .ok (.arr [.num 2]), 60, 70⟩).response = ⟨200, some (.arr [.num 1])⟩ ∧
     requests (handle (.datastore "res" none none (some "nofilter"))
        (handle (.datastore "res" none none none) ⟨[]⟩
          ⟨fun _ => .ok (.arr [.num 1]), 0, 50⟩).cache
        ⟨fun _ => .ok (.arr [.num 2]), 60, 70⟩).trace = []) :=
  datastore_key_collision "res" none none ⟨[]⟩ ⟨fun _ => .ok (.arr [.num 1]), 0, 50⟩
    ⟨fun _ => .ok (.arr [.num 2]), 60, 70⟩ (.arr [.num 1]) rfl rfl (by decide) rfl rfl

end VigiaProxy
